import Mathlib

/-!
Verification of the session-lifecycle and presence-tracking core of the
meditation-timer repository.

The definitions below are a shallow embedding of the TypeScript source:

* `Storage` — `src/unnamed/part_005` (`utils/storage.ts`): the
  `SessionCheckpoint` record, its JSON serialisation to local storage,
  and the `saveSessionCheckpoint` / `getSessionCheckpoint` /
  `clearSessionCheckpoint` accessors.
* `GC` — `src/components/GlobalCounter.tsx` (current variant): orphan
  reconciliation at startup (`handleExistingCheckpoint`), explicit session
  end (`handleEndSession`), orphan confirmation
  (`handleConfirmOrphanSession`), checkpoint writing (`saveCheckpoint`),
  and the heartbeat `fetchStats` including its error fallback.
* `GCV` — `src/unnamed/part_011` (visibility-tracking `GlobalCounter`
  variant) and `src/unnamed/part_002` (matching `App` variant): the
  `shouldContinue` session-continuation predicate and the
  `visibilitychange` handler that force-ends long-backgrounded sessions.
* `DB` — `src/unnamed/part_001` (`lib/database.ts`) and
  `src/unnamed/part_004` (Express server): user records, the
  `updateUser` increment semantics and the `getUserRank` /
  leaderboard-rank queries.

Timestamps are JavaScript `Date.now()` millisecond values, modelled as
`Int`.  `Math.floor(x / 1000)` on a possibly negative difference is
`Int.fdiv x 1000` (floor division).  JavaScript truthiness tests on
nullable numbers and strings (`if (ref.current)`) are modelled explicitly:
`none` and `some 0` / `some ""` are falsy.
-/

namespace MeditationTimer

/-- JS truthiness of a nullable number (`null`, `0` are falsy). -/
def truthyNum : Option Int → Bool
  | none => false
  | some n => n != 0

/-- JS truthiness of a nullable string (`null`, `""` are falsy). -/
def truthyStr : Option String → Bool
  | none => false
  | some s => s != ""

/-- Model of `Math.floor(x / 1000)` for an integer millisecond quantity `x`. -/
def floorDivMs (x : Int) : Int := Int.fdiv x 1000

/-- Constant `SESSION_BACKGROUND_THRESHOLD_MS = 2 * 60 * 1000` (part_005, utils/storage.ts). -/
def SESSION_BACKGROUND_THRESHOLD_MS : Int := 2 * 60 * 1000

/-- Constant `ONE_HOUR_IN_SECONDS = 60 * 60` (GlobalCounter.tsx, handleExistingCheckpoint). -/
def ONE_HOUR_IN_SECONDS : Int := 60 * 60

namespace Storage

/-- The `SessionCheckpoint` interface (part_005, utils/storage.ts lines 34-42). -/
structure SessionCheckpoint where
  sessionId : String
  userId : String
  startedAt : Int
  lastCheckpoint : Int
  elapsedSeconds : Int
  wasPageVisible : Bool
  lastHiddenAt : Option Int
deriving Repr, DecidableEq

/-- JSON values as produced by `JSON.stringify` on checkpoint records:
strings, (integer) numbers, booleans, `null` and objects. -/
inductive Json where
  | str (s : String)
  | num (n : Int)
  | bool (b : Bool)
  | null
  | obj (fields : List (String × Json))

/-- Field lookup in a JSON object. -/
def lookupField : List (String × Json) → String → Option Json
  | [], _ => none
  | (k, v) :: rest, key => if k = key then some v else lookupField rest key

def asStr : Option Json → Option String
  | some (.str s) => some s
  | _ => none

def asNum : Option Json → Option Int
  | some (.num n) => some n
  | _ => none

def asBool : Option Json → Option Bool
  | some (.bool b) => some b
  | _ => none

def asNumOrNull : Option Json → Option (Option Int)
  | some (.num n) => some (some n)
  | some .null => some none
  | _ => none

/-- Model of `JSON.stringify(checkpoint)` (the serialised shape written by
`saveSessionCheckpoint`, part_005 line 258-260). -/
def encodeCheckpoint (c : SessionCheckpoint) : Json :=
  .obj [("sessionId", .str c.sessionId),
        ("userId", .str c.userId),
        ("startedAt", .num c.startedAt),
        ("lastCheckpoint", .num c.lastCheckpoint),
        ("elapsedSeconds", .num c.elapsedSeconds),
        ("wasPageVisible", .bool c.wasPageVisible),
        ("lastHiddenAt", match c.lastHiddenAt with
                         | some t => .num t
                         | none => .null)]

/-- Model of `JSON.parse` of a stored checkpoint back into a `SessionCheckpoint`
(the read side of `getSessionCheckpoint`, part_005 lines 265-275; a value
that does not have the checkpoint shape yields `none`, matching the
`catch { return null }` branch). -/
def decodeCheckpoint : Json → Option SessionCheckpoint
  | .obj fields =>
    match asStr (lookupField fields "sessionId"),
          asStr (lookupField fields "userId"),
          asNum (lookupField fields "startedAt"),
          asNum (lookupField fields "lastCheckpoint"),
          asNum (lookupField fields "elapsedSeconds"),
          asBool (lookupField fields "wasPageVisible"),
          asNumOrNull (lookupField fields "lastHiddenAt") with
    | some sid, some uid, some sa, some lc, some es, some v, some lh =>
        some ⟨sid, uid, sa, lc, es, v, lh⟩
    | _, _, _, _, _, _, _ => none
  | _ => none

/-- The local-storage slot holding the serialised checkpoint under the
`om-session-checkpoint` key (part_005, STORAGE_KEYS). -/
structure RawStore where
  sessionCheckpointRaw : Option Json

/-- Model of `StorageManager.saveSessionCheckpoint` (part_005 lines 258-260):
`localStorage.setItem(key, JSON.stringify(checkpoint))`. -/
def saveSessionCheckpoint (c : SessionCheckpoint) (s : RawStore) : RawStore :=
  { s with sessionCheckpointRaw := some (encodeCheckpoint c) }

/-- Model of `StorageManager.getSessionCheckpoint` (part_005 lines 265-275):
read the raw item and `JSON.parse` it, returning `null` when absent or
malformed. -/
def getSessionCheckpoint (s : RawStore) : Option SessionCheckpoint :=
  match s.sessionCheckpointRaw with
  | some j => decodeCheckpoint j
  | none => none

/-- Model of `StorageManager.clearSessionCheckpoint` (part_005 lines 280-282). -/
def clearSessionCheckpoint (s : RawStore) : RawStore :=
  { s with sessionCheckpointRaw := none }

end Storage

end MeditationTimer

namespace MeditationTimer

namespace DB

/-- A row of the `users` table / `users` collection (part_004 schema:
`id`, `display_name`, `total_seconds`, `sessions_count`; part_001 `User`). -/
structure DbUser where
  id : String
  displayName : Option String
  totalSeconds : Int
  sessionsCount : Int
deriving Repr, DecidableEq

/-- Model of `getUserRank` (part_001 lines 153-170, Firestore branch): the size of
the query `where('totalSeconds', '>', userTotalSeconds)` over the users
collection, plus 1. -/
def getUserRank (users : List DbUser) (userTotalSeconds : Int) : Int :=
  ((users.filter fun v => v.totalSeconds > userTotalSeconds).length : Int) + 1

/-- The `currentUserRank` query of `GET /api/meditation/leaderboard`
(part_004 lines 226-248): `SELECT COUNT(*) + 1 FROM users WHERE
total_seconds > u.total_seconds` for the row `u` with the requested id;
`none` when no such row exists. -/
def leaderboardCurrentUserRank (users : List DbUser) (userId : String) :
    Option Int :=
  (users.find? fun u => u.id = userId).map fun u =>
    ((users.filter fun v => v.totalSeconds > u.totalSeconds).length : Int) + 1

end DB

/-- The backend RPC calls the engine issues, in the vocabulary of the
abstraction layer `lib/database.ts` (part_001): `endSession(sessionId,
durationSeconds, endedAt?)`, `updateUser(userId, {totalSecondsIncrement,
sessionsCountIncrement, lastSeen})` (the spec's `incrementUserStats`)
and `getUser(userId)`. -/
inductive BackendCall where
  | endSession (sessionId : String) (durationSeconds : Int) (endedAt : Option Int)
  | updateUser (userId : String) (totalSecondsIncrement : Int)
      (sessionsCountIncrement : Int) (lastSeen : Bool)
  | getUser (userId : String)
deriving Repr, DecidableEq

/-- Effect of one backend call on a stored user record: `updateUser`
applies Firestore `increment` to `totalSeconds` and `sessionsCount`
(part_001 lines 118-151); the other calls do not touch user rows. -/
def applyCall (u : DB.DbUser) : BackendCall → DB.DbUser
  | .updateUser uid secs sess _ =>
      if uid = u.id then
        { u with totalSeconds := u.totalSeconds + secs,
                 sessionsCount := u.sessionsCount + sess }
      else u
  | _ => u

/-- Effect of a sequence of backend calls on a stored user record. -/
def applyCalls (u : DB.DbUser) (cs : List BackendCall) : DB.DbUser :=
  cs.foldl applyCall u

/-- The `LocalStats` record (part_005): the locally cached aggregate statistics.
`lastSession` holds the millisecond timestamp whose ISO rendering the
source stores (`new Date(x).toISOString()`). -/
structure LocalStats where
  totalSeconds : Int
  lastSession : Option Int
  sessionsCount : Int
deriving Repr, DecidableEq

/-- The `PendingOrphanSession` record (current `utils/storage.ts`; shape as
constructed in GlobalCounter.tsx lines 50-56). -/
structure PendingOrphanSession where
  sessionId : String
  userId : String
  startedAt : Int
  endedAt : Int
  durationSeconds : Int
deriving Repr, DecidableEq

namespace GC

/-- The checkpoint record written by the current `GlobalCounter.tsx`
`saveCheckpoint` (lines 80-86): `sessionId`, `userId`, `startedAt`,
`lastCheckpoint`, `elapsedSeconds`. -/
structure Checkpoint where
  sessionId : String
  userId : String
  startedAt : Int
  lastCheckpoint : Int
  elapsedSeconds : Int
deriving Repr, DecidableEq

/-- In-memory refs and local durable state of the current `GlobalCounter`
component: `sessionIdRef`, `sessionStartTimeRef`, the local-storage
checkpoint and pending-orphan slots, the cached local stats, and the two
displayed counts (`active`, `totalUnique`).

The pending-orphan slot accessors (`savePendingOrphanSession`,
`clearPendingOrphanSession`) live in the current `utils/storage.ts`,
which is not among the provided sources; their effect on the singular
slot is modelled from the spec ("at most one Pending Orphan Session" in
the Local Durable State Store) as plain field updates. -/
structure State where
  sessionId : Option String
  sessionStartTime : Option Int
  sessionCheckpoint : Option Checkpoint
  pendingOrphan : Option PendingOrphanSession
  localStats : LocalStats
  active : Int
  totalUnique : Int
deriving Repr, DecidableEq

/-- Model of `handleExistingCheckpoint` (GlobalCounter.tsx lines 39-74): on mount,
read the checkpoint; when it belongs to the current user, compute
`durationSeconds = Math.max(0, Math.floor((lastCheckpoint - startedAt) /
1000))`; if at least one hour, save a pending orphan session and dispatch
`orphanedSessionFound` (the second component of the result — `some`
models the dispatched confirmation prompt); otherwise discard; in either
branch clear the checkpoint.  A checkpoint of another user is left
untouched. -/
def handleExistingCheckpoint (userId : String) (st : State) :
    State × Option PendingOrphanSession :=
  match st.sessionCheckpoint with
  | some cp =>
    if cp.userId = userId then
      let durationSeconds := max 0 (floorDivMs (cp.lastCheckpoint - cp.startedAt))
      if durationSeconds ≥ ONE_HOUR_IN_SECONDS then
        let pending : PendingOrphanSession :=
          { sessionId := cp.sessionId
            userId := cp.userId
            startedAt := cp.startedAt
            endedAt := cp.lastCheckpoint
            durationSeconds := durationSeconds }
        ({ st with sessionCheckpoint := none, pendingOrphan := some pending },
         some pending)
      else
        ({ st with sessionCheckpoint := none }, none)
    else (st, none)
  | none => (st, none)

/-- Model of `saveCheckpoint` (GlobalCounter.tsx lines 77-89): no-op unless
`userId`, `sessionStartTimeRef.current` and `sessionIdRef.current` are
all truthy; otherwise write a fresh checkpoint with `lastCheckpoint =
Date.now()` and `elapsedSeconds = Math.floor((Date.now() - startedAt) /
1000)`. -/
def saveCheckpoint (now : Int) (userId : String) (st : State) : State :=
  match st.sessionId, st.sessionStartTime with
  | some sid, some start =>
    if userId ≠ "" ∧ sid ≠ "" ∧ start ≠ 0 then
      let cp : Checkpoint :=
        { sessionId := sid, userId := userId, startedAt := start,
          lastCheckpoint := now,
          elapsedSeconds := floorDivMs (now - start) }
      { st with sessionCheckpoint := some cp }
    else st
  | _, _ => st

/-- Model of `handleEndSession` (GlobalCounter.tsx lines 260-297): when both
session refs are truthy, compute `durationSeconds = Math.max(0,
Math.floor((Date.now() - startedAt) / 1000))`, call
`endSession(sessionId, durationSeconds)`, then — only when the duration
is strictly positive — `updateUser` with the increments, then `getUser`
(whose awaited response is the `lookup` argument) to refresh the local
stats; finally drop both refs and clear the checkpoint.  With no session
reference held, the handler body is skipped entirely. -/
def handleEndSession (now : Int) (userId : String) (lookup : Option DB.DbUser)
    (st : State) : State × List BackendCall :=
  match st.sessionId, st.sessionStartTime with
  | some sid, some start =>
    if sid ≠ "" ∧ start ≠ 0 then
      let durationSeconds := max 0 (floorDivMs (now - start))
      let calls := [BackendCall.endSession sid durationSeconds none]
          ++ (if durationSeconds > 0 then
                [BackendCall.updateUser userId durationSeconds 1 true]
              else [])
          ++ [BackendCall.getUser userId]
      let stats := match lookup with
        | some u =>
            { totalSeconds := u.totalSeconds
              lastSession := some now
              sessionsCount := u.sessionsCount }
        | none => st.localStats
      ({ st with sessionId := none, sessionStartTime := none,
                 sessionCheckpoint := none, localStats := stats },
       calls)
    else (st, [])
  | _, _ => (st, [])

/-- Model of `handleConfirmOrphanSession` (GlobalCounter.tsx lines 299-335): on a
confirmed pending orphan of the current user, call
`endSession(sessionId, durationSeconds, endedAt)`, then — only for a
strictly positive duration — `updateUser` with the increments, then
`getUser` to refresh local stats; finally clear the pending-orphan slot.
A missing event detail or another user's orphan is ignored. -/
def handleConfirmOrphanSession (userId : String) (lookup : Option DB.DbUser)
    (session : Option PendingOrphanSession) (st : State) :
    State × List BackendCall :=
  match session with
  | none => (st, [])
  | some s =>
    if s.userId ≠ userId then (st, [])
    else
      let calls := [BackendCall.endSession s.sessionId s.durationSeconds (some s.endedAt)]
          ++ (if s.durationSeconds > 0 then
                [BackendCall.updateUser userId s.durationSeconds 1 true]
              else [])
          ++ [BackendCall.getUser userId]
      let stats := match lookup with
        | some u =>
            { totalSeconds := u.totalSeconds
              lastSession := some s.endedAt
              sessionsCount := u.sessionsCount }
        | none => st.localStats
      ({ st with pendingOrphan := none, localStats := stats }, calls)

/-- Environment of one heartbeat tick: whether the backend is reachable,
the counts it returns, and the session id a `startSession` call would
mint. -/
structure TickEnv where
  backendOk : Bool
  activeCount : Int
  totalCount : Int
  newSessionId : String
deriving Repr, DecidableEq

/-- The heartbeat branch of `fetchStats` (GlobalCounter.tsx lines 91-229,
`isClosing = false`): on a reachable backend, report the heartbeat,
start a session when `sessionIdRef.current` is falsy (recording
`startedAt = Date.now()`), write a checkpoint and display the fetched
counts.  When a backend call throws, the `catch` block (lines 221-228)
runs instead: it still writes the checkpoint and falls back to the
degraded local-only display `active = 1`, `totalUnique = 1`.  The
function is total — no failure escapes the tick. -/
def fetchStatsHeartbeat (now : Int) (userId : String) (env : TickEnv)
    (st : State) : State :=
  if env.backendOk then
    let st1 :=
      if truthyStr st.sessionId then st
      else { st with sessionId := some env.newSessionId,
                     sessionStartTime := some now }
    let st2 := saveCheckpoint now userId st1
    { st2 with active := env.activeCount, totalUnique := env.totalCount }
  else
    let st2 := saveCheckpoint now userId st
    { st2 with active := 1, totalUnique := 1 }

end GC

namespace GCV

/-- The session-continuation predicate evaluated on a checkpoint found at
startup.  The same logic appears verbatim in the `GlobalCounter` variant
(part_011, `handleExistingCheckpoint`, lines 156-181) and in the `App`
variant (part_002, lines 39-50):

* page was visible at the last checkpoint → always continue;
* page was hidden and `lastHiddenAt` is truthy → continue iff
  `Date.now() - lastHiddenAt <= SESSION_BACKGROUND_THRESHOLD_MS`;
* otherwise (backwards-compatibility fallback) → continue iff
  `Date.now() - lastCheckpoint <= SESSION_BACKGROUND_THRESHOLD_MS`. -/
def shouldContinue (now : Int) (cp : Storage.SessionCheckpoint) : Bool :=
  if cp.wasPageVisible then true
  else if truthyNum cp.lastHiddenAt then
    decide (now - cp.lastHiddenAt.getD 0 ≤ SESSION_BACKGROUND_THRESHOLD_MS)
  else
    decide (now - cp.lastCheckpoint ≤ SESSION_BACKGROUND_THRESHOLD_MS)

/-- In-memory refs and local state of the visibility-tracking
`GlobalCounter` variant (part_011): `sessionIdRef`,
`sessionStartTimeRef`, `lastHiddenAtRef`, the local checkpoint slot and
the cached local stats. -/
structure State where
  sessionId : Option String
  sessionStartTime : Option Int
  lastHiddenAt : Option Int
  sessionCheckpoint : Option Storage.SessionCheckpoint
  localStats : LocalStats
deriving Repr, DecidableEq

/-- Model of `saveCheckpoint` of the part_011 variant (lines 240-258): guarded by
truthiness of `userId` and both session refs; records the current
visibility state and `lastHiddenAtRef.current`. -/
def saveCheckpoint (now : Int) (userId : String) (isPageVisible : Bool)
    (st : State) : State :=
  match st.sessionId, st.sessionStartTime with
  | some sid, some start =>
    if userId ≠ "" ∧ sid ≠ "" ∧ start ≠ 0 then
      let cp : Storage.SessionCheckpoint :=
        { sessionId := sid, userId := userId, startedAt := start,
          lastCheckpoint := now,
          elapsedSeconds := floorDivMs (now - start),
          wasPageVisible := isPageVisible,
          lastHiddenAt := st.lastHiddenAt }
      { st with sessionCheckpoint := some cp }
    else st
  | _, _ => st

/-- The `visible` branch of `handleVisibilityChange` (part_011 lines
470-530).  When `lastHiddenAtRef.current` is truthy and the page was
hidden for longer than `SESSION_BACKGROUND_THRESHOLD_MS`: if a session
is held, end it *as of `lastHiddenAt`* — `durationSeconds = Math.max(0,
Math.floor((lastHiddenAt - startedAt) / 1000))` and
`endSession(sessionId, durationSeconds, lastHiddenAt)` — increment the
user stats only for a strictly positive duration (via `updateUser`,
followed by `getUser` to refresh local stats), drop the session refs and
clear the checkpoint; in all over-threshold cases reset `lastHiddenAt`.
Within the threshold nothing is ended.  The handler finishes with a
`saveCheckpoint` (the page is now visible). -/
def onVisibilityVisible (now : Int) (userId : String)
    (lookup : Option DB.DbUser) (st : State) : State × List BackendCall :=
  let step :=
    if truthyNum st.lastHiddenAt then
      let t := st.lastHiddenAt.getD 0
      if now - t > SESSION_BACKGROUND_THRESHOLD_MS then
        match st.sessionId, st.sessionStartTime with
        | some sid, some start =>
          if sid != "" ∧ start != 0 then
            let durationSeconds := max 0 (floorDivMs (t - start))
            let calls := [BackendCall.endSession sid durationSeconds (some t)]
                ++ (if durationSeconds > 0 then
                      [BackendCall.updateUser userId durationSeconds 1 true]
                    else [])
                ++ [BackendCall.getUser userId]
            let stats := match lookup with
              | some u =>
                  { totalSeconds := u.totalSeconds
                    lastSession := some t
                    sessionsCount := u.sessionsCount }
              | none => st.localStats
            ({ st with sessionId := none, sessionStartTime := none,
                       sessionCheckpoint := none, localStats := stats,
                       lastHiddenAt := none },
             calls)
          else ({ st with lastHiddenAt := none }, [])
        | _, _ => ({ st with lastHiddenAt := none }, [])
      else (st, [])
    else (st, [])
  (saveCheckpoint now userId true step.1, step.2)

end GCV

/-! ## Helper lemmas about emitted backend-call lists

All three session-committing operations (`handleEndSession`,
`handleConfirmOrphanSession` and the over-threshold branch of
`handleVisibilityChange`) emit the same shape of call list:
`endSession` with some duration, a stats increment guarded by a
strictly-positive duration, and a `getUser` refresh. -/

/-- The common shape of the call list emitted when a session is
committed. -/
def commitCalls (sid : String) (dur : Int) (endedAt : Option Int)
    (userId : String) : List BackendCall :=
  [BackendCall.endSession sid dur endedAt]
    ++ (if dur > 0 then [BackendCall.updateUser userId dur 1 true] else [])
    ++ [BackendCall.getUser userId]

/-- The seconds increment a call applies to a user's `totalSeconds`. -/
def secondsDelta : BackendCall → Int
  | .updateUser _ s _ _ => s
  | _ => 0

/-- The per-call guarantee the spec requires: committed durations are
clamped non-negative, stats increments are strictly positive. -/
def callOk : BackendCall → Prop
  | .endSession _ d _ => 0 ≤ d
  | .updateUser _ s _ _ => 0 < s
  | .getUser _ => True

lemma commitCalls_secondsDelta_nonneg (sid : String) (dur : Int)
    (endedAt : Option Int) (userId : String) :
    ∀ c ∈ commitCalls sid dur endedAt userId, 0 ≤ secondsDelta c := by
  intro c hc
  unfold commitCalls at hc
  simp only [List.mem_append, List.mem_singleton] at hc
  rcases hc with (hc | hc) | hc
  · subst hc; simp [secondsDelta]
  · split at hc
    · rename_i hdur
      simp only [List.mem_singleton] at hc
      subst hc
      simp only [secondsDelta]
      omega
    · simp at hc
  · subst hc; simp [secondsDelta]

lemma commitCalls_callOk (sid : String) (dur : Int) (hdur : 0 ≤ dur)
    (endedAt : Option Int) (userId : String) :
    ∀ c ∈ commitCalls sid dur endedAt userId, callOk c := by
  intro c hc
  unfold commitCalls at hc
  simp only [List.mem_append, List.mem_singleton] at hc
  rcases hc with (hc | hc) | hc
  · subst hc; exact hdur
  · split at hc
    · rename_i hpos
      simp only [List.mem_singleton] at hc
      subst hc
      exact hpos
    · simp at hc
  · subst hc; trivial

lemma commitCalls_updateUser_pos (sid : String) (dur : Int)
    (endedAt : Option Int) (userId : String) (uid : String) (s k : Int)
    (b : Bool)
    (hmem : BackendCall.updateUser uid s k b ∈ commitCalls sid dur endedAt userId) :
    0 < s := by
  have := commitCalls_secondsDelta_nonneg sid dur endedAt userId _ hmem
  unfold commitCalls at hmem
  simp only [List.mem_append, List.mem_singleton] at hmem
  rcases hmem with (hmem | hmem) | hmem
  · exact absurd hmem (by simp)
  · split at hmem
    · rename_i hpos
      simp only [List.mem_singleton, BackendCall.updateUser.injEq] at hmem
      omega
    · simp at hmem
  · exact absurd hmem (by simp)

lemma applyCall_totalSeconds_ge (u : DB.DbUser) (c : BackendCall)
    (h : 0 ≤ secondsDelta c) :
    u.totalSeconds ≤ (applyCall u c).totalSeconds := by
  cases c with
  | updateUser uid s k b =>
      simp only [secondsDelta] at h
      simp only [applyCall]
      split
      · simp only [DB.DbUser.mk.injEq]
        omega
      · omega
  | endSession sid d ea => simp [applyCall]
  | getUser uid => simp [applyCall]

lemma applyCalls_totalSeconds_ge (cs : List BackendCall)
    (h : ∀ c ∈ cs, 0 ≤ secondsDelta c) (u : DB.DbUser) :
    u.totalSeconds ≤ (applyCalls u cs).totalSeconds := by
  induction cs generalizing u with
  | nil => simp [applyCalls]
  | cons c rest ih =>
      have h1 : 0 ≤ secondsDelta c := h c (by simp)
      have h2 : ∀ d ∈ rest, 0 ≤ secondsDelta d := fun d hd => h d (by simp [hd])
      calc u.totalSeconds ≤ (applyCall u c).totalSeconds :=
            applyCall_totalSeconds_ge u c h1
        _ ≤ (applyCalls (applyCall u c) rest).totalSeconds := ih h2 (applyCall u c)
        _ = (applyCalls u (c :: rest)).totalSeconds := by simp [applyCalls]

/-- The call list emitted by `handleEndSession` is either empty or the
standard commit shape with the clamped duration
`max 0 (floor((now - startedAt) / 1000))`. -/
lemma handleEndSession_calls_shape (now : Int) (userId : String)
    (lookup : Option DB.DbUser) (st : GC.State) :
    (GC.handleEndSession now userId lookup st).2 = [] ∨
    ∃ sid start, st.sessionId = some sid ∧ st.sessionStartTime = some start ∧
      (GC.handleEndSession now userId lookup st).2 =
        commitCalls sid (max 0 (floorDivMs (now - start))) none userId := by
  unfold GC.handleEndSession
  rcases hsid : st.sessionId with _ | sid
  · left; rfl
  · rcases hstart : st.sessionStartTime with _ | start
    · left; rfl
    · by_cases hc : sid ≠ "" ∧ start ≠ 0
      · right
        refine ⟨sid, start, rfl, rfl, ?_⟩
        simp only [commitCalls, if_pos hc]
      · left
        simp only [if_neg hc]

/-- The call list emitted by `handleConfirmOrphanSession` is either empty
or the standard commit shape with the stored orphan duration. -/
lemma handleConfirmOrphanSession_calls_shape (userId : String)
    (lookup : Option DB.DbUser) (session : Option PendingOrphanSession)
    (st : GC.State) :
    (GC.handleConfirmOrphanSession userId lookup session st).2 = [] ∨
    ∃ s, session = some s ∧
      (GC.handleConfirmOrphanSession userId lookup session st).2 =
        commitCalls s.sessionId s.durationSeconds (some s.endedAt) userId := by
  unfold GC.handleConfirmOrphanSession
  rcases session with _ | s
  · left; rfl
  · by_cases hu : s.userId ≠ userId
    · left
      simp only [if_pos hu]
    · right
      refine ⟨s, rfl, ?_⟩
      simp only [commitCalls, if_neg hu]

/-- The call list emitted by the `visible` branch of
`handleVisibilityChange` is either empty or the standard commit shape
with the duration computed up to `lastHiddenAt`. -/
lemma onVisibilityVisible_calls_shape (now : Int) (userId : String)
    (lookup : Option DB.DbUser) (st : GCV.State) :
    (GCV.onVisibilityVisible now userId lookup st).2 = [] ∨
    ∃ sid start t, st.sessionId = some sid ∧ st.sessionStartTime = some start ∧
      st.lastHiddenAt = some t ∧
      (GCV.onVisibilityVisible now userId lookup st).2 =
        commitCalls sid (max 0 (floorDivMs (t - start))) (some t) userId := by
  unfold GCV.onVisibilityVisible
  rcases hhid : st.lastHiddenAt with _ | t
  · left; simp [truthyNum]
  · by_cases ht : t = 0
    · left; simp [truthyNum, ht]
    · by_cases hth : now - t > SESSION_BACKGROUND_THRESHOLD_MS
      · rcases hsid : st.sessionId with _ | sid
        · left; simp [truthyNum, ht, hth]
        · rcases hstart : st.sessionStartTime with _ | start
          · left; simp [truthyNum, ht, hth]
          · by_cases hc : sid ≠ "" ∧ start ≠ 0
            · right
              refine ⟨sid, start, t, rfl, rfl, rfl, ?_⟩
              simp [truthyNum, ht, hth, hc, commitCalls]
            · left
              simp [truthyNum, ht, hth, hc]
      · left; simp [truthyNum, ht, hth]

/-! ## Claim theorems -/

/-- C7: for every valid session checkpoint `c`, saving it and then
reading it back round-trips: after `saveSessionCheckpoint(c)`,
`getSessionCheckpoint()` returns a checkpoint equal to `c`. -/
theorem checkpoint_save_get_roundtrip (c : Storage.SessionCheckpoint)
    (s : Storage.RawStore) :
    Storage.getSessionCheckpoint (Storage.saveSessionCheckpoint c s) = some c := by
  rcases c with ⟨sid, uid, sa, lc, es, v, lh⟩
  cases lh <;> rfl

/-- C2: for every session checkpoint with `lastCheckpoint > startedAt`
and `wasPageVisible == true`, reopening the app continues the session
(`shouldContinue == true`), regardless of how much real time (`now`) has
elapsed since the checkpoint was written. -/
theorem visible_session_always_continues (now : Int)
    (cp : Storage.SessionCheckpoint)
    (horder : cp.startedAt < cp.lastCheckpoint)
    (hvis : cp.wasPageVisible = true) :
    GCV.shouldContinue now cp = true := by
  simp [GCV.shouldContinue, hvis]

/-- Witness for C2 at a concrete checkpoint written long before `now`. -/
theorem visible_session_always_continues_witness :
    (100 : Int) < 200 ∧
    GCV.shouldContinue 99999999999 ⟨"s1", "u1", 100, 200, 0, true, none⟩ = true :=
  ⟨by decide,
   visible_session_always_continues 99999999999
     ⟨"s1", "u1", 100, 200, 0, true, none⟩ (by decide) rfl⟩

/-- C10 (implicit frame property): when the checkpoint found at startup
has a `userId` different from the current user's id, the
orphan-reconciliation flow leaves all local state unchanged — no pending
orphan session is created, no confirmation prompt (`none`) is surfaced,
and the checkpoint itself is not cleared. -/
theorem foreign_checkpoint_left_untouched (userId : String) (st : GC.State)
    (cp : GC.Checkpoint) (hcp : st.sessionCheckpoint = some cp)
    (hne : cp.userId ≠ userId) :
    GC.handleExistingCheckpoint userId st = (st, none) := by
  unfold GC.handleExistingCheckpoint
  rw [hcp]
  simp [hne]

/-- Witness for C10: a checkpoint of user `u2` found while `u1` is the
current user stays in storage. -/
theorem foreign_checkpoint_left_untouched_witness :
    (GC.State.sessionCheckpoint
        ⟨none, none, some ⟨"s1", "u2", 0, 7200000, 7200⟩, none, ⟨0, none, 0⟩, 0, 0⟩ =
      some ⟨"s1", "u2", 0, 7200000, 7200⟩) ∧
    GC.handleExistingCheckpoint "u1"
        ⟨none, none, some ⟨"s1", "u2", 0, 7200000, 7200⟩, none, ⟨0, none, 0⟩, 0, 0⟩ =
      (⟨none, none, some ⟨"s1", "u2", 0, 7200000, 7200⟩, none, ⟨0, none, 0⟩, 0, 0⟩, none) :=
  ⟨rfl,
   foreign_checkpoint_left_untouched "u1"
     ⟨none, none, some ⟨"s1", "u2", 0, 7200000, 7200⟩, none, ⟨0, none, 0⟩, 0, 0⟩
     ⟨"s1", "u2", 0, 7200000, 7200⟩ rfl (by decide)⟩

/-- C1: for every session checkpoint found at startup that belongs to the
current user, with implied duration
`d = Math.floor((lastCheckpoint - startedAt) / 1000)` seconds: if
`d < 3600` (including `d ≤ 0`) no pending orphan session is created and
the checkpoint is silently discarded; if `d ≥ 3600` a pending orphan
session with `durationSeconds = d`, `startedAt = checkpoint.startedAt`
and `endedAt = checkpoint.lastCheckpoint` is created and a confirmation
prompt is surfaced; and in every case the checkpoint is cleared. -/
theorem orphan_checkpoint_threshold_policy (userId : String) (st : GC.State)
    (cp : GC.Checkpoint) (hcp : st.sessionCheckpoint = some cp)
    (huser : cp.userId = userId) :
    (floorDivMs (cp.lastCheckpoint - cp.startedAt) < 3600 →
       GC.handleExistingCheckpoint userId st =
         ({ st with sessionCheckpoint := none }, none)) ∧
    (3600 ≤ floorDivMs (cp.lastCheckpoint - cp.startedAt) →
       GC.handleExistingCheckpoint userId st =
         ({ st with sessionCheckpoint := none,
                    pendingOrphan := some
                      ⟨cp.sessionId, cp.userId, cp.startedAt, cp.lastCheckpoint,
                       floorDivMs (cp.lastCheckpoint - cp.startedAt)⟩ },
          some ⟨cp.sessionId, cp.userId, cp.startedAt, cp.lastCheckpoint,
                floorDivMs (cp.lastCheckpoint - cp.startedAt)⟩)) ∧
    (GC.handleExistingCheckpoint userId st).1.sessionCheckpoint = none := by
  have hthresh : (ONE_HOUR_IN_SECONDS ≤
      max 0 (floorDivMs (cp.lastCheckpoint - cp.startedAt))) ↔
      3600 ≤ floorDivMs (cp.lastCheckpoint - cp.startedAt) := by
    unfold ONE_HOUR_IN_SECONDS
    rw [le_max_iff]
    norm_num
  refine ⟨?_, ?_, ?_⟩
  · intro hlt
    unfold GC.handleExistingCheckpoint
    rw [hcp]
    simp only [huser, ite_true, if_pos rfl, ge_iff_le]
    rw [if_neg (by rw [hthresh]; omega)]
  · intro hge
    have hmax : max 0 (floorDivMs (cp.lastCheckpoint - cp.startedAt)) =
        floorDivMs (cp.lastCheckpoint - cp.startedAt) :=
      max_eq_right (by omega)
    unfold GC.handleExistingCheckpoint
    rw [hcp]
    simp only [huser, ite_true, if_pos rfl, ge_iff_le]
    rw [if_pos (hthresh.mpr hge), hmax]
  · unfold GC.handleExistingCheckpoint
    rw [hcp]
    simp only [huser, ite_true, if_pos rfl, ge_iff_le]
    by_cases h : ONE_HOUR_IN_SECONDS ≤
        max 0 (floorDivMs (cp.lastCheckpoint - cp.startedAt))
    · rw [if_pos h]
    · rw [if_neg h]

/-- Witness for C1 at a two-hour checkpoint of the current user
(duration 7200 ≥ 3600: orphan created, checkpoint cleared). -/
theorem orphan_checkpoint_threshold_policy_witness :
    (GC.State.sessionCheckpoint
        ⟨none, none, some ⟨"s1", "u1", 0, 7200000, 7200⟩, none, ⟨0, none, 0⟩, 0, 0⟩ =
       some ⟨"s1", "u1", 0, 7200000, 7200⟩) ∧
    (3600 ≤ floorDivMs ((7200000 : Int) - 0) →
       GC.handleExistingCheckpoint "u1"
           ⟨none, none, some ⟨"s1", "u1", 0, 7200000, 7200⟩, none, ⟨0, none, 0⟩, 0, 0⟩ =
         (⟨none, none, none, some ⟨"s1", "u1", 0, 7200000, floorDivMs ((7200000 : Int) - 0)⟩,
           ⟨0, none, 0⟩, 0, 0⟩,
          some ⟨"s1", "u1", 0, 7200000, floorDivMs ((7200000 : Int) - 0)⟩)) :=
  ⟨rfl,
   (orphan_checkpoint_threshold_policy "u1"
      ⟨none, none, some ⟨"s1", "u1", 0, 7200000, 7200⟩, none, ⟨0, none, 0⟩, 0, 0⟩
      ⟨"s1", "u1", 0, 7200000, 7200⟩ rfl rfl).2.1⟩

/-- C4: ending a session explicitly with a session reference held and
1800 seconds elapsed sends `endSession(sessionId, 1800)` and then, in
that order, the stats increment `{secondsDelta := 1800, sessionDelta :=
1, touchLastSeen := true}` (`updateUser` in the abstraction layer); the
stats increment is emitted only for a strictly positive duration (final
conjunct, universally quantified); the local checkpoint is cleared, and
no pending orphan session is created. -/
theorem explicit_end_after_1800s (now : Int) (userId : String)
    (lookup : Option DB.DbUser) (st : GC.State) (sid : String) (start : Int)
    (hsid : st.sessionId = some sid) (hsid0 : sid ≠ "")
    (hstart : st.sessionStartTime = some start) (hstart0 : start ≠ 0)
    (helapsed : now - start = 1800000) :
    (GC.handleEndSession now userId lookup st).2 =
      [BackendCall.endSession sid 1800 none,
       BackendCall.updateUser userId 1800 1 true,
       BackendCall.getUser userId] ∧
    (GC.handleEndSession now userId lookup st).1.sessionCheckpoint = none ∧
    (GC.handleEndSession now userId lookup st).1.sessionId = none ∧
    (GC.handleEndSession now userId lookup st).1.pendingOrphan = st.pendingOrphan ∧
    (∀ (n2 : Int) (u2 : String) (l2 : Option DB.DbUser) (st2 : GC.State)
       (uid : String) (s k : Int) (b : Bool),
       BackendCall.updateUser uid s k b ∈ (GC.handleEndSession n2 u2 l2 st2).2 →
       0 < s) := by
  have hdur : max (0 : Int) (floorDivMs (now - start)) = 1800 := by
    rw [helapsed]; decide
  have hpos : ∀ (n2 : Int) (u2 : String) (l2 : Option DB.DbUser)
      (st2 : GC.State) (uid : String) (s k : Int) (b : Bool),
      BackendCall.updateUser uid s k b ∈ (GC.handleEndSession n2 u2 l2 st2).2 →
      0 < s := by
    intro n2 u2 l2 st2 uid s k b hmem
    rcases handleEndSession_calls_shape n2 u2 l2 st2 with hnil | ⟨s2, t2, _, _, hshape⟩
    · rw [hnil] at hmem; simp at hmem
    · rw [hshape] at hmem
      exact commitCalls_updateUser_pos _ _ _ _ _ _ _ _ hmem
  refine ⟨?_, ?_, ?_, ?_, hpos⟩ <;>
    · unfold GC.handleEndSession
      rw [hsid, hstart]
      simp [hsid0, hstart0, hdur]

/-- Witness for C4 at a concrete state: session "s1" started at t=1000ms,
ended at t=1801000ms. -/
theorem explicit_end_after_1800s_witness :
    (GC.State.sessionId ⟨some "s1", some 1000, none, none, ⟨0, none, 0⟩, 0, 0⟩ =
       some "s1") ∧
    ((1801000 : Int) - 1000 = 1800000) ∧
    (GC.handleEndSession 1801000 "u1" none
        ⟨some "s1", some 1000, none, none, ⟨0, none, 0⟩, 0, 0⟩).2 =
      [BackendCall.endSession "s1" 1800 none,
       BackendCall.updateUser "u1" 1800 1 true,
       BackendCall.getUser "u1"] :=
  ⟨rfl, by decide,
   (explicit_end_after_1800s 1801000 "u1" none
      ⟨some "s1", some 1000, none, none, ⟨0, none, 0⟩, 0, 0⟩ "s1" 1000
      rfl (by decide) rfl (by decide) (by decide)).1⟩

/-- C6: `endExplicit` is idempotent.  First conjunct: with no in-memory
session reference held, `handleEndSession` performs no backend calls and
leaves the state unchanged.  Second conjunct: calling it twice in a row,
the second call is always such a no-op on the state left by the first. -/
theorem end_session_idempotent :
    (∀ (now : Int) (userId : String) (lookup : Option DB.DbUser)
       (st : GC.State), st.sessionId = none →
       GC.handleEndSession now userId lookup st = (st, [])) ∧
    (∀ (now1 now2 : Int) (userId : String) (l1 l2 : Option DB.DbUser)
       (st : GC.State),
       GC.handleEndSession now2 userId l2 (GC.handleEndSession now1 userId l1 st).1 =
         ((GC.handleEndSession now1 userId l1 st).1, [])) := by
  have base : ∀ (now : Int) (userId : String) (lookup : Option DB.DbUser)
      (st : GC.State), st.sessionId = none →
      GC.handleEndSession now userId lookup st = (st, []) := by
    intro now userId lookup st h
    unfold GC.handleEndSession
    rw [h]
  refine ⟨base, ?_⟩
  intro now1 now2 userId l1 l2 st
  rcases hsid : st.sessionId with _ | sid
  · rw [base now1 userId l1 st hsid]
    exact base now2 userId l2 st hsid
  · rcases hstart : st.sessionStartTime with _ | start
    · have hfst : GC.handleEndSession now1 userId l1 st = (st, []) := by
        unfold GC.handleEndSession
        rw [hsid, hstart]
      rw [hfst]
      unfold GC.handleEndSession
      rw [hsid, hstart]
    · by_cases hc : sid ≠ "" ∧ start ≠ 0
      · have h1 : (GC.handleEndSession now1 userId l1 st).1.sessionId = none := by
          unfold GC.handleEndSession
          rw [hsid, hstart]
          simp [hc]
        exact base now2 userId l2 _ h1
      · have hfst : GC.handleEndSession now1 userId l1 st = (st, []) := by
          unfold GC.handleEndSession
          rw [hsid, hstart]
          simp [hc]
        rw [hfst]
        unfold GC.handleEndSession
        rw [hsid, hstart]
        simp [hc]

/-- Witness for C6: on a state with no session reference, ending a
session is a no-op. -/
theorem end_session_idempotent_witness :
    (GC.State.sessionId ⟨none, none, none, none, ⟨0, none, 0⟩, 0, 0⟩ = none) ∧
    GC.handleEndSession 5000 "u1" none ⟨none, none, none, none, ⟨0, none, 0⟩, 0, 0⟩ =
      (⟨none, none, none, none, ⟨0, none, 0⟩, 0, 0⟩, []) :=
  ⟨rfl, end_session_idempotent.1 5000 "u1" none _ rfl⟩

/-- C3: the background threshold is 120 seconds (first conjunct).  For
every checkpoint with `wasPageVisible == false` and `lastHiddenAt` set
(a truthy, i.e. nonzero, timestamp `t`): `shouldContinue` is true
exactly when `now - t ≤ 120000` ms (second conjunct — this covers both
the continue and the not-continue direction of the claim).  Third
conjunct: in the live visibility handler, when the page returns after
more than the threshold with a session held, the session is force-ended
*as of `lastHiddenAt`*: the emitted commit carries `durationSeconds =
max(0, floor((lastHiddenAt - startedAt) / 1000))` and
`endedAt = lastHiddenAt` — a function of `lastHiddenAt` and `startedAt`
only, not of `now` — and the session refs and checkpoint are dropped. -/
theorem background_threshold_policy :
    SESSION_BACKGROUND_THRESHOLD_MS = 120000 ∧
    (∀ (now t : Int) (cp : Storage.SessionCheckpoint),
       cp.wasPageVisible = false → cp.lastHiddenAt = some t → t ≠ 0 →
       GCV.shouldContinue now cp =
         decide (now - t ≤ SESSION_BACKGROUND_THRESHOLD_MS)) ∧
    (∀ (now t start : Int) (userId sid : String) (lookup : Option DB.DbUser)
       (st : GCV.State),
       st.lastHiddenAt = some t → t ≠ 0 →
       now - t > SESSION_BACKGROUND_THRESHOLD_MS →
       st.sessionId = some sid → sid ≠ "" →
       st.sessionStartTime = some start → start ≠ 0 →
       (GCV.onVisibilityVisible now userId lookup st).2 =
         commitCalls sid (max 0 (floorDivMs (t - start))) (some t) userId ∧
       (GCV.onVisibilityVisible now userId lookup st).1.sessionId = none ∧
       (GCV.onVisibilityVisible now userId lookup st).1.sessionCheckpoint = none) := by
  refine ⟨by unfold SESSION_BACKGROUND_THRESHOLD_MS; norm_num, ?_, ?_⟩
  · intro now t cp hvis hhid ht
    unfold GCV.shouldContinue
    rw [hhid]
    simp [hvis, truthyNum, ht]
  · intro now t start userId sid lookup st hhid ht hth hsid hsid0 hstart hstart0
    unfold GCV.onVisibilityVisible
    rw [hhid, hsid, hstart]
    simp [truthyNum, ht, hth, hsid0, hstart0, GCV.saveCheckpoint, commitCalls]

/-- Witness for C3: a checkpoint hidden 50 s before `now` (continues) and
a live state hidden 150 s before `now` with a held session (force-ended
as of `lastHiddenAt = 150000`). -/
theorem background_threshold_policy_witness :
    (GCV.shouldContinue 100000 ⟨"s1", "u1", 0, 90000, 90, false, some 50000⟩ =
       decide ((100000 : Int) - 50000 ≤ SESSION_BACKGROUND_THRESHOLD_MS)) ∧
    ((GCV.onVisibilityVisible 300000 "u1" none
        ⟨some "s1", some 1000, some 150000, none, ⟨0, none, 0⟩⟩).2 =
       commitCalls "s1" (max 0 (floorDivMs ((150000 : Int) - 1000)))
         (some 150000) "u1") :=
  ⟨background_threshold_policy.2.1 100000 50000
     ⟨"s1", "u1", 0, 90000, 90, false, some 50000⟩ rfl rfl (by decide),
   (background_threshold_policy.2.2 300000 150000 1000 "u1" "s1" none
     ⟨some "s1", some 1000, some 150000, none, ⟨0, none, 0⟩⟩
     rfl (by decide) (by decide) rfl (by decide) rfl (by decide)).1⟩

/-- C5: when a tick's backend calls fail, the heartbeat does not crash
(`fetchStatsHeartbeat` is total and takes the `catch` branch): with a
session reference held it still writes the local session checkpoint
(`lastCheckpoint = now`), and it displays the degraded local-only counts
of 1 active and 1 total user; a subsequent tick with a reachable backend
again displays the fetched counts. -/
theorem tick_failure_fallback (now now2 : Int) (userId : String)
    (env env2 : GC.TickEnv) (st : GC.State) (sid : String) (start : Int)
    (hfail : env.backendOk = false)
    (hsid : st.sessionId = some sid) (hsid0 : sid ≠ "")
    (hstart : st.sessionStartTime = some start) (hstart0 : start ≠ 0)
    (huid : userId ≠ "") (hok2 : env2.backendOk = true) :
    (GC.fetchStatsHeartbeat now userId env st).sessionCheckpoint =
      some ⟨sid, userId, start, now, floorDivMs (now - start)⟩ ∧
    (GC.fetchStatsHeartbeat now userId env st).active = 1 ∧
    (GC.fetchStatsHeartbeat now userId env st).totalUnique = 1 ∧
    (GC.fetchStatsHeartbeat now2 userId env2
        (GC.fetchStatsHeartbeat now userId env st)).active = env2.activeCount ∧
    (GC.fetchStatsHeartbeat now2 userId env2
        (GC.fetchStatsHeartbeat now userId env st)).totalUnique = env2.totalCount := by
  have hr : GC.fetchStatsHeartbeat now userId env st =
      { st with
        sessionCheckpoint := some ⟨sid, userId, start, now, floorDivMs (now - start)⟩,
        active := 1, totalUnique := 1 } := by
    unfold GC.fetchStatsHeartbeat GC.saveCheckpoint
    rw [hfail, hsid, hstart]
    simp [huid, hsid0, hstart0]
  rw [hr]
  refine ⟨rfl, rfl, rfl, ?_, ?_⟩ <;>
    · unfold GC.fetchStatsHeartbeat GC.saveCheckpoint
      rw [hok2]
      simp [truthyStr, hsid, hstart, hsid0, hstart0, huid]

/-- Witness for C5 at a concrete failed tick followed by a successful
one. -/
theorem tick_failure_fallback_witness :
    (GC.TickEnv.backendOk ⟨false, 7, 9, "n1"⟩ = false) ∧
    (GC.fetchStatsHeartbeat 2000 "u1" ⟨false, 7, 9, "n1"⟩
        ⟨some "s1", some 1000, none, none, ⟨0, none, 0⟩, 0, 0⟩).active = 1 ∧
    (GC.fetchStatsHeartbeat 2000 "u1" ⟨false, 7, 9, "n1"⟩
        ⟨some "s1", some 1000, none, none, ⟨0, none, 0⟩, 0, 0⟩).totalUnique = 1 ∧
    (GC.fetchStatsHeartbeat 2000 "u1" ⟨false, 7, 9, "n1"⟩
        ⟨some "s1", some 1000, none, none, ⟨0, none, 0⟩, 0, 0⟩).sessionCheckpoint =
      some ⟨"s1", "u1", 1000, 2000, floorDivMs ((2000 : Int) - 1000)⟩ :=
  have h := tick_failure_fallback 2000 3000 "u1" ⟨false, 7, 9, "n1"⟩
    ⟨true, 7, 9, "n2"⟩ ⟨some "s1", some 1000, none, none, ⟨0, none, 0⟩, 0, 0⟩
    "s1" 1000 rfl rfl (by decide) rfl (by decide) (by decide) rfl
  ⟨rfl, h.2.1, h.2.2.1, h.1⟩

/-- C8: `getUserRank` returns a 1-based rank equal to the count of users
whose `totalSeconds` is strictly greater than this user's `totalSeconds`,
plus 1 (first conjunct, for the Firestore branch of part_001); the SQL
`currentUserRank` query of the local server computes the same rank for
the row found under the user's id (second conjunct). -/
theorem user_rank_strictly_greater_count (users : List DB.DbUser)
    (u : DB.DbUser) :
    DB.getUserRank users u.totalSeconds =
      ((users.countP fun v => u.totalSeconds < v.totalSeconds : Nat) : Int) + 1 ∧
    (users.find? (fun v => v.id = u.id) = some u →
       DB.leaderboardCurrentUserRank users u.id =
         some (DB.getUserRank users u.totalSeconds)) := by
  constructor
  · simp [DB.getUserRank, List.countP_eq_length_filter, gt_iff_lt]
  · intro hfind
    unfold DB.leaderboardCurrentUserRank DB.getUserRank
    rw [hfind]
    rfl

/-- Witness for C8 on a two-user database where "b" (50 s) is outranked
only by "a" (100 s): rank 2. -/
theorem user_rank_strictly_greater_count_witness :
    ([⟨"a", none, 100, 1⟩, ⟨"b", none, 50, 1⟩] :
        List DB.DbUser).find? (fun v => v.id = "b") = some ⟨"b", none, 50, 1⟩ ∧
    DB.leaderboardCurrentUserRank
        [⟨"a", none, 100, 1⟩, ⟨"b", none, 50, 1⟩] "b" =
      some (DB.getUserRank [⟨"a", none, 100, 1⟩, ⟨"b", none, 50, 1⟩] 50) :=
  ⟨by decide,
   (user_rank_strictly_greater_count
      [⟨"a", none, 100, 1⟩, ⟨"b", none, 50, 1⟩] ⟨"b", none, 50, 1⟩).2 (by decide)⟩

/-- C9: a user's `totalSeconds` is monotonically non-decreasing under the
core's committing operations.  Conjuncts 1-2: every call emitted by
`handleEndSession` and by the visibility force-end satisfies `callOk`
(committed durations clamped `≥ 0`, stats increments strictly positive).
Conjunct 3: every pending orphan the engine creates carries a duration
`≥ 3600` (in particular clamped `≥ 0`).  Conjunct 4: confirming an
orphan with a non-negative stored duration also emits only `callOk`
calls.  Conjuncts 5-7: applying the calls emitted by any of the three
operations to any stored user record never decreases `totalSeconds`. -/
theorem total_seconds_monotone :
    (∀ (now : Int) (userId : String) (lookup : Option DB.DbUser)
       (st : GC.State),
       ∀ c ∈ (GC.handleEndSession now userId lookup st).2, callOk c) ∧
    (∀ (now : Int) (userId : String) (lookup : Option DB.DbUser)
       (st : GCV.State),
       ∀ c ∈ (GCV.onVisibilityVisible now userId lookup st).2, callOk c) ∧
    (∀ (userId : String) (st : GC.State) (p : PendingOrphanSession),
       (GC.handleExistingCheckpoint userId st).2 = some p →
       3600 ≤ p.durationSeconds) ∧
    (∀ (userId : String) (lookup : Option DB.DbUser)
       (s : PendingOrphanSession) (st : GC.State),
       0 ≤ s.durationSeconds →
       ∀ c ∈ (GC.handleConfirmOrphanSession userId lookup (some s) st).2,
         callOk c) ∧
    (∀ (u : DB.DbUser) (now : Int) (userId : String)
       (lookup : Option DB.DbUser) (st : GC.State),
       u.totalSeconds ≤
         (applyCalls u (GC.handleEndSession now userId lookup st).2).totalSeconds) ∧
    (∀ (u : DB.DbUser) (now : Int) (userId : String)
       (lookup : Option DB.DbUser) (st : GCV.State),
       u.totalSeconds ≤
         (applyCalls u (GCV.onVisibilityVisible now userId lookup st).2).totalSeconds) ∧
    (∀ (u : DB.DbUser) (userId : String) (lookup : Option DB.DbUser)
       (session : Option PendingOrphanSession) (st : GC.State),
       u.totalSeconds ≤
         (applyCalls u
           (GC.handleConfirmOrphanSession userId lookup session st).2).totalSeconds) := by
  refine ⟨?_, ?_, ?_, ?_, ?_, ?_, ?_⟩
  · intro now userId lookup st c hc
    rcases handleEndSession_calls_shape now userId lookup st with
      hnil | ⟨sid, start, _, _, hshape⟩
    · rw [hnil] at hc; simp at hc
    · rw [hshape] at hc
      exact commitCalls_callOk _ _ (le_max_left _ _) _ _ c hc
  · intro now userId lookup st c hc
    rcases onVisibilityVisible_calls_shape now userId lookup st with
      hnil | ⟨sid, start, t, _, _, _, hshape⟩
    · rw [hnil] at hc; simp at hc
    · rw [hshape] at hc
      exact commitCalls_callOk _ _ (le_max_left _ _) _ _ c hc
  · intro userId st p hp
    unfold GC.handleExistingCheckpoint at hp
    split at hp
    · split at hp
      · simp only [ge_iff_le] at hp
        split at hp
        · rename_i hth
          simp only [Option.some.injEq] at hp
          rw [← hp]
          exact le_trans
            (le_of_eq (by unfold ONE_HOUR_IN_SECONDS; norm_num)) hth
        · exact absurd hp (by simp)
      · exact absurd hp (by simp)
    · exact absurd hp (by simp)
  · intro userId lookup s st hs c hc
    rcases handleConfirmOrphanSession_calls_shape userId lookup (some s) st with
      hnil | ⟨s', hs', hshape⟩
    · rw [hnil] at hc; simp at hc
    · rw [hshape] at hc
      injection hs' with h
      subst h
      exact commitCalls_callOk _ _ hs _ _ c hc
  · intro u now userId lookup st
    rcases handleEndSession_calls_shape now userId lookup st with
      hnil | ⟨sid, start, _, _, hshape⟩
    · rw [hnil]; simp [applyCalls]
    · rw [hshape]
      exact applyCalls_totalSeconds_ge _ (commitCalls_secondsDelta_nonneg _ _ _ _) u
  · intro u now userId lookup st
    rcases onVisibilityVisible_calls_shape now userId lookup st with
      hnil | ⟨sid, start, t, _, _, _, hshape⟩
    · rw [hnil]; simp [applyCalls]
    · rw [hshape]
      exact applyCalls_totalSeconds_ge _ (commitCalls_secondsDelta_nonneg _ _ _ _) u
  · intro u userId lookup session st
    rcases handleConfirmOrphanSession_calls_shape userId lookup session st with
      hnil | ⟨s', _, hshape⟩
    · rw [hnil]; simp [applyCalls]
    · rw [hshape]
      exact applyCalls_totalSeconds_ge _ (commitCalls_secondsDelta_nonneg _ _ _ _) u

/-- Witness for C9: the orphan created from a two-hour checkpoint has
duration 7200 ≥ 3600, and confirming it emits only `callOk` calls. -/
theorem total_seconds_monotone_witness :
    ((GC.handleExistingCheckpoint "u1"
        ⟨none, none, some ⟨"s1", "u1", 0, 7200000, 7200⟩, none,
         ⟨0, none, 0⟩, 0, 0⟩).2 =
       some ⟨"s1", "u1", 0, 7200000, 7200⟩) ∧
    (3600 : Int) ≤
      PendingOrphanSession.durationSeconds ⟨"s1", "u1", 0, 7200000, 7200⟩ ∧
    (∀ c ∈ (GC.handleConfirmOrphanSession "u1" none
        (some ⟨"s1", "u1", 0, 7200000, 7200⟩)
        ⟨none, none, none, some ⟨"s1", "u1", 0, 7200000, 7200⟩,
         ⟨0, none, 0⟩, 0, 0⟩).2, callOk c) :=
  ⟨by decide,
   total_seconds_monotone.2.2.1 "u1"
     ⟨none, none, some ⟨"s1", "u1", 0, 7200000, 7200⟩, none,
      ⟨0, none, 0⟩, 0, 0⟩
     ⟨"s1", "u1", 0, 7200000, 7200⟩ (by decide),
   total_seconds_monotone.2.2.2.1 "u1" none
     ⟨"s1", "u1", 0, 7200000, 7200⟩
     ⟨none, none, none, some ⟨"s1", "u1", 0, 7200000, 7200⟩,
      ⟨0, none, 0⟩, 0, 0⟩ (by decide)⟩

end MeditationTimer
